import Mathlib

set_option maxRecDepth 10000

/-!
Verification development for the financial data pipeline
(`financial_data_pipeline.py`): tag canonicalization, filing assembly
(pivot/first-wins), the Altman Z''-score ratio engine, risk
classification, and the missing-tag diagnostic.

Conventions of the shallow embedding:
* pandas `NaN` / nullable cells are `Option ℚ`; numeric values are exact
  rationals (the idealization of the script's floating-point arithmetic);
* a dataframe is a `List` of row records, in row order;
* Python's `round` / pandas `.round` (half-to-even at a given number of
  decimal places) is `roundTo`;
* Python dicts keyed by strings are association lists built by
  insert-or-overwrite (`dictInsert`), preserving insertion order;
* `read_csv` failures are the `Except.error` branch of a batch input.
-/

namespace FinPipeline

/-- `CANONICAL_TAG_MAP` from the script: canonical concept name paired with
its list of raw-label aliases, in the source's dict order. -/
def CANONICAL_TAG_MAP : List (String × List String) :=
  [ ("Assets", ["Assets", "AssetsTotal", "AssetsNet", "TotalAssets", "AssetsCombined"]),
    ("LiabilitiesCurrent",
      ["LiabilitiesCurrent", "CurrentLiabilities", "LiabilitiesCurrentTotal", "TotalCurrentLiabilities",
       "LiabilitiesCurrentAbstract", "TotalLiabilitiesCurrent"]),
    ("AssetsCurrent",
      ["AssetsCurrent", "CurrentAssets", "AssetsCurrentTotal", "TotalCurrentAssets",
       "AssetsCurrentAbstract", "TotalAssetsCurrent"]),
    ("RetainedEarnings",
      ["RetainedEarnings", "AccumulatedDeficit", "RetainedEarningsAccumulatedDeficit",
       "RetainedEarningsAccumulatedDeficitAbstract"]),
    ("EBIT",
      ["OperatingIncomeLoss", "EarningsBeforeInterestAndTaxes",
       "IncomeLossFromContinuingOperationsBeforeInterestExpenseAndTaxExpense",
       "IncomeLossFromContinuingOperationsBeforeIncomeTaxesMinorityInterestAndIncomeLossFromEquityInvestments",
       "PretaxIncomeLossFromContinuingOperations"]),
    ("Liabilities",
      ["Liabilities", "LiabilitiesTotal", "TotalLiabilitiesNoncurrentAndCurrent", "TotalLiabilities"]),
    ("Revenues",
      ["Revenues", "SalesRevenueNet", "RevenuesTotal", "TotalRevenue", "NetSales",
       "RevenueFromContractWithCustomerExcludingAssessedTax",
       "RevenueFromContractWithCustomerIncludingAssessedTax"]),
    ("StockholdersEquity",
      ["StockholdersEquity", "CommonStockholdersEquity", "PartnersCapital", "TotalStockholdersEquity",
       "StockholdersEquityIncludingPortionAttributableToNoncontrollingInterest", "EquityAttributableToParent"]),
    ("NetIncomeLoss",
      ["NetIncomeLoss", "IncomeLossFromContinuingOperations", "ProfitLoss", "NetIncomeLossAttributableToParent"]),
    ("CommonStockSharesOutstanding",
      ["CommonStockSharesOutstanding", "CommonStockSharesIssued", "WeightedAverageNumberOfShareOutstandingBasic"])
  ]

/-- `Z_SCORE_CORE_TAGS` from the script: the eight core concepts the
diagnostic checks, including `Revenues`. -/
def Z_SCORE_CORE_TAGS : List String :=
  ["Assets", "LiabilitiesCurrent", "AssetsCurrent", "RetainedEarnings",
   "EBIT", "Liabilities", "Revenues", "StockholdersEquity"]

/-- `ALL_CANONICAL_TAGS = list(CANONICAL_TAG_MAP.keys())`. -/
def ALL_CANONICAL_TAGS : List String := CANONICAL_TAG_MAP.map (fun p => p.1)

/-- `ALL_POTENTIAL_TAGS`: every alias of every canonical concept. -/
def ALL_POTENTIAL_TAGS : List String := (CANONICAL_TAG_MAP.map (fun p => p.2)).flatten

/-- Python dict assignment `d[k] = v`: overwrite in place if the key is
present, else append (insertion order preserved). -/
def dictInsert (d : List (String × String)) (k v : String) : List (String × String) :=
  if d.any (fun p => p.1 == k) then
    d.map (fun p => if p.1 == k then (k, v) else p)
  else d ++ [(k, v)]

/-- Python dict lookup by key (keys are unique by construction). -/
def dictLookup (d : List (String × String)) (k : String) : Option String :=
  (d.find? (fun p => p.1 == k)).map (fun p => p.2)

/-- Python `k in d` (dict key membership). -/
def dictContains (d : List (String × String)) (k : String) : Bool :=
  d.any (fun p => p.1 == k)

/-- `get_tag_rename_map`: reverse the canonical map into alias → concept,
later entries overwriting earlier ones, as Python dict assignment does. -/
def get_tag_rename_map (m : List (String × List String)) : List (String × String) :=
  m.foldl (fun acc p => p.2.foldl (fun a t => dictInsert a t p.1) acc) []

/-- The module-level reverse index built from `CANONICAL_TAG_MAP`. -/
def tag_rename_map : List (String × String) := get_tag_rename_map CANONICAL_TAG_MAP

/-- One row of the NUM fact table (`adsh, tag, ddate, value, uom, qtrs, dim`);
`dim = none` is a context-free fact (pandas `isna`). -/
structure RawFact where
  adsh : String
  tag : String
  ddate : String
  value : ℚ
  uom : String
  qtrs : Nat
  dim : Option String
deriving DecidableEq, Repr

/-- Steps 3 of `load_and_merge_data`: keep context-free facts
(`dim` is null) whose tag is a known alias, then rewrite each tag to its
canonical concept. -/
def survivingFacts (facts : List RawFact) : List RawFact :=
  (((facts.filter (fun f => f.dim == none)).filter
      (fun f => ALL_POTENTIAL_TAGS.contains f.tag)).map
    (fun f => { f with tag := (dictLookup tag_rename_map f.tag).getD f.tag }))

/-- Order-preserving deduplication (pandas `.unique()`), with an explicit
accumulator of already-seen values. -/
def uniqueAux (seen : List String) : List String → List String
  | [] => []
  | a :: rest =>
      if seen.contains a then uniqueAux seen rest
      else a :: uniqueAux (a :: seen) rest

/-- pandas `Series.unique().tolist()`: first occurrences, in order. -/
def uniqueList (l : List String) : List String := uniqueAux [] l

/-- The column set of `pivot_table(index='adsh', columns='tag', ...)`:
exactly the tags that occur in the surviving facts of the batch.  A
concept no surviving fact mentions yields no column. -/
def pivotCols (facts : List RawFact) : List String :=
  uniqueList ((survivingFacts facts).map (fun f => f.tag))

/-- The pivoted cell for `(adsh, concept)` under `aggfunc='first'`: the
value of the first surviving fact for that filing and concept, in
original row order; `none` when no such fact exists. -/
def pivotValue (facts : List RawFact) (adsh tag : String) : Option ℚ :=
  ((survivingFacts facts).find? (fun f => f.adsh == adsh && f.tag == tag)).map
    (fun f => f.value)

/-- An assembled wide row: `adsh` plus one nullable cell per canonical
concept. -/
structure FilingRecord where
  adsh : String
  Assets : Option ℚ
  LiabilitiesCurrent : Option ℚ
  AssetsCurrent : Option ℚ
  RetainedEarnings : Option ℚ
  EBIT : Option ℚ
  Liabilities : Option ℚ
  Revenues : Option ℚ
  StockholdersEquity : Option ℚ
  NetIncomeLoss : Option ℚ
  CommonStockSharesOutstanding : Option ℚ
deriving DecidableEq, Repr

/-- The wide row the pivot produces for one filing, one cell per canonical
concept (first-wins within each cell). -/
def assembleRecord (facts : List RawFact) (adsh : String) : FilingRecord :=
  { adsh := adsh
    Assets := pivotValue facts adsh "Assets"
    LiabilitiesCurrent := pivotValue facts adsh "LiabilitiesCurrent"
    AssetsCurrent := pivotValue facts adsh "AssetsCurrent"
    RetainedEarnings := pivotValue facts adsh "RetainedEarnings"
    EBIT := pivotValue facts adsh "EBIT"
    Liabilities := pivotValue facts adsh "Liabilities"
    Revenues := pivotValue facts adsh "Revenues"
    StockholdersEquity := pivotValue facts adsh "StockholdersEquity"
    NetIncomeLoss := pivotValue facts adsh "NetIncomeLoss"
    CommonStockSharesOutstanding := pivotValue facts adsh "CommonStockSharesOutstanding" }

/-- Column access `r[c]` on a wide row, for the ten canonical concepts. -/
def getField (r : FilingRecord) (c : String) : Option ℚ :=
  if c == "Assets" then r.Assets
  else if c == "LiabilitiesCurrent" then r.LiabilitiesCurrent
  else if c == "AssetsCurrent" then r.AssetsCurrent
  else if c == "RetainedEarnings" then r.RetainedEarnings
  else if c == "EBIT" then r.EBIT
  else if c == "Liabilities" then r.Liabilities
  else if c == "Revenues" then r.Revenues
  else if c == "StockholdersEquity" then r.StockholdersEquity
  else if c == "NetIncomeLoss" then r.NetIncomeLoss
  else if c == "CommonStockSharesOutstanding" then r.CommonStockSharesOutstanding
  else none

/-- `required_tags_for_z_score` from `calculate_financial_ratios`: the
seven concepts whose absence drops a record (`Revenues` is not among
them). -/
def required_tags_for_z_score : List String :=
  ["Assets", "LiabilitiesCurrent", "AssetsCurrent", "RetainedEarnings",
   "EBIT", "Liabilities", "StockholdersEquity"]

/-- `df.dropna(subset=required_tags_for_z_score, how='any')` keeps a row
exactly when all seven required cells are non-null. -/
def requiredPresent (r : FilingRecord) : Bool :=
  required_tags_for_z_score.all (fun t => (getField r t).isSome)

/-- `.replace(0, np.nan)` on one cell. -/
def zeroToNan (v : Option ℚ) : Option ℚ :=
  match v with
  | none => none
  | some x => if x = 0 then none else some x

/-- The zero-denominator pass: replace an exact `0` with null in the
`Assets`, `Liabilities` and `StockholdersEquity` columns only. -/
def replaceZeroDenoms (r : FilingRecord) : FilingRecord :=
  { r with
    Assets := zeroToNan r.Assets
    Liabilities := zeroToNan r.Liabilities
    StockholdersEquity := zeroToNan r.StockholdersEquity }

/-- `X1 = (AssetsCurrent - LiabilitiesCurrent) / Assets`; null (pandas
NaN) propagates from any operand. -/
def x1 (r : FilingRecord) : Option ℚ :=
  match r.AssetsCurrent, r.LiabilitiesCurrent, r.Assets with
  | some ac, some lc, some a => some ((ac - lc) / a)
  | _, _, _ => none

/-- `X2 = RetainedEarnings / Assets`. -/
def x2 (r : FilingRecord) : Option ℚ :=
  match r.RetainedEarnings, r.Assets with
  | some re, some a => some (re / a)
  | _, _ => none

/-- `X3 = EBIT / Assets`. -/
def x3 (r : FilingRecord) : Option ℚ :=
  match r.EBIT, r.Assets with
  | some e, some a => some (e / a)
  | _, _ => none

/-- `X4 = StockholdersEquity / Liabilities`. -/
def x4 (r : FilingRecord) : Option ℚ :=
  match r.StockholdersEquity, r.Liabilities with
  | some se, some l => some (se / l)
  | _, _ => none

/-- `X5`: starts as NaN; assigned `Revenues / Assets` only on rows where
both `Revenues` and `Assets` are non-null. -/
def x5 (r : FilingRecord) : Option ℚ :=
  match r.Revenues, r.Assets with
  | some rev, some a => some (rev / a)
  | _, _ => none

/-- `z_score = 6.56 X1 + 3.26 X2 + 6.72 X3 + 1.05 X4`, computed from the
unrounded ratios; null if any of X1–X4 is null. -/
def zRaw (r : FilingRecord) : Option ℚ :=
  match x1 r, x2 r, x3 r, x4 r with
  | some a, some b, some c, some d =>
      some (6.56 * a + 3.26 * b + 6.72 * c + 1.05 * d)
  | _, _, _, _ => none

/-- `roe`: assigned `NetIncomeLoss / StockholdersEquity` only where both
are non-null and the equity is non-zero; NaN otherwise. -/
def roeOf (r : FilingRecord) : Option ℚ :=
  match r.NetIncomeLoss, r.StockholdersEquity with
  | some ni, some se => if se ≠ 0 then some (ni / se) else none
  | _, _ => none

/-- `eps`: assigned `NetIncomeLoss / CommonStockSharesOutstanding` only
where both are non-null and the share count is non-zero. -/
def epsOf (r : FilingRecord) : Option ℚ :=
  match r.NetIncomeLoss, r.CommonStockSharesOutstanding with
  | some ni, some sh => if sh ≠ 0 then some (ni / sh) else none
  | _, _ => none

/-- Round-half-to-even to an integer (Python's `round` on an exact
value). -/
def rhe (q : ℚ) : ℤ :=
  if q - (⌊q⌋ : ℚ) < 1/2 then ⌊q⌋
  else if 1/2 < q - (⌊q⌋ : ℚ) then ⌊q⌋ + 1
  else if ⌊q⌋ % 2 = 0 then ⌊q⌋ else ⌊q⌋ + 1

/-- `round(q, n)` / pandas `.round(n)`: round half-to-even at `n` decimal
places. -/
def roundTo (n : ℕ) (q : ℚ) : ℚ := (rhe (q * 10 ^ n) : ℚ) / 10 ^ n

/-- `get_prediction`: classify a (possibly null) rounded z-score into the
risk bands. -/
def get_prediction (z : Option ℚ) : String :=
  match z with
  | none => "Incomplete/Invalid"
  | some v => if v > 2.6 then "Safe" else if v > 1.1 then "Grey" else "Distress"

/-- The derived columns of one output row, as exported by `main_process`
(`X1..X5, z_score, prediction, roe, eps` plus the renamed passthrough
columns `net_income`, `total_equity`, `shares_outstanding`). -/
structure OutRecord where
  adsh : String
  X1 : Option ℚ
  X2 : Option ℚ
  X3 : Option ℚ
  X4 : Option ℚ
  X5 : Option ℚ
  net_income : Option ℚ
  total_equity : Option ℚ
  shares_outstanding : Option ℚ
  z_score : Option ℚ
  prediction : String
  eps : Option ℚ
  roe : Option ℚ
deriving DecidableEq, Repr

/-- The column pipeline of `calculate_financial_ratios` applied to one
(already zero-replaced) row: ratios, rounding, prediction from the
rounded score, and the final NaN-to-0.0 cleanup of `z_score`. -/
def mkOut (r : FilingRecord) : OutRecord :=
  let z := (zRaw r).map (roundTo 3)
  let pred := get_prediction z
  { adsh := r.adsh
    X1 := (x1 r).map (roundTo 4)
    X2 := (x2 r).map (roundTo 4)
    X3 := (x3 r).map (roundTo 4)
    X4 := (x4 r).map (roundTo 4)
    X5 := (x5 r).map (roundTo 4)
    net_income := r.NetIncomeLoss
    total_equity := r.StockholdersEquity
    shares_outstanding := r.CommonStockSharesOutstanding
    z_score := if z == none && pred == "Incomplete/Invalid" then some 0 else z
    prediction := pred
    eps := (epsOf r).map (roundTo 2)
    roe := (roeOf r).map (roundTo 4) }

/-- `calculate_financial_ratios` on a dataframe of assembled rows: drop
rows missing a required cell, null out zero denominators, then compute
every derived column row by row. -/
def calculate_financial_ratios (df : List FilingRecord) : List OutRecord :=
  ((df.filter requiredPresent).map replaceZeroDenoms).map mkOut

/-- `safe_numeric_to_db`: a null cell becomes SQL NULL, any value is
stringified. -/
def safe_numeric_to_db (v : Option ℚ) : Option String := v.map toString

/-- One row of the SUB metadata table
(`adsh, cik, name, period, fy, fp`). -/
structure SubRow where
  adsh : String
  cik : Int
  name : String
  period : String
  fy : Option Int
  fp : String
deriving DecidableEq, Repr

/-- One quarter directory as `load_and_merge_data` sees it: `none` means
the file does not exist; `Except.error` means `read_csv` raises on a
structurally malformed table; `Except.ok` is the parsed row list. -/
structure Batch where
  source : String
  subFile : Option (Except String (List SubRow))
  numFile : Option (Except String (List RawFact))

/-- `load_and_merge_data` for one batch: missing files yield an empty
frame; a `read_csv` failure propagates as an uncaught exception (there
is no try/except in the function); otherwise filter to annual filings,
filter/normalize the facts, pivot first-wins, and inner-join on `adsh`
preserving metadata row order. -/
def load_and_merge_data (b : Batch) : Except String (List (SubRow × FilingRecord)) :=
  match b.subFile, b.numFile with
  | none, _ => Except.ok []
  | _, none => Except.ok []
  | some subE, some numE => do
      let subRows ← subE
      let annual := subRows.filter (fun s => s.fp == "FY")
      if annual.isEmpty then pure [] else do
      let numRows ← numE
      let surv := survivingFacts numRows
      if surv.isEmpty then pure [] else
      pure (annual.filterMap (fun s =>
        if surv.any (fun f => f.adsh == s.adsh) then
          some (s, assembleRecord numRows s.adsh)
        else none))

/-- The loading loop of `main_process`: each batch is loaded in turn,
non-empty frames are concatenated; an exception from any batch aborts
the whole loop (the loop body has no try/except). -/
def main_process_load (batches : List Batch) : Except String (List (SubRow × FilingRecord)) :=
  batches.foldlM
    (fun acc b => do
      let d ← load_and_merge_data b
      pure (if d.isEmpty then acc else acc ++ d))
    []

/-- `diagnose_missing_tags_v2`: the target filing's fact rows — filter to
the filing's `adsh`, then to context-free rows. -/
def df_num_target (facts : List RawFact) (adsh : String) : List RawFact :=
  (facts.filter (fun f => f.adsh == adsh)).filter (fun f => f.dim == none)

/-- `present_tags`: canonical concepts found among the filing's
context-free facts (map through the reverse index, drop unmapped,
deduplicate in order). -/
def present_tags (facts : List RawFact) (adsh : String) : List String :=
  uniqueList ((df_num_target facts adsh).filterMap (fun f => dictLookup tag_rename_map f.tag))

/-- `missing_core_tags`: the core concepts (the eight-element
`Z_SCORE_CORE_TAGS`, which includes `Revenues`) not present in the
filing. -/
def missing_core_tags (facts : List RawFact) (adsh : String) : List String :=
  Z_SCORE_CORE_TAGS.filter (fun t => !((present_tags facts adsh).contains t))

/-- Python `s.lower()`, as a character list. -/
def pyLower (s : String) : List Char := s.data.map Char.toLower

/-- Whether `sub` is an initial segment of `s` (character lists). -/
def chListStarts : List Char → List Char → Bool
  | [], _ => true
  | _ :: _, [] => false
  | a :: as, b :: bs => a == b && chListStarts as bs

/-- Python substring membership `sub in s` (character lists). -/
def chListHasSub (sub : List Char) : List Char → Bool
  | [] => sub.isEmpty
  | c :: rest => chListStarts sub (c :: rest) || chListHasSub sub rest

/-- The candidate test of the diagnostic:
`missing_tag.lower() in tag.lower() or missing_tag[:3].lower() in tag.lower()`. -/
def tagSimilar (missing_tag tag : String) : Bool :=
  chListHasSub (pyLower missing_tag) (pyLower tag) ||
  chListHasSub ((missing_tag.data.take 3).map Char.toLower) (pyLower tag)

/-- `all_original_tags`: the distinct raw labels of the filing's
context-free facts, first occurrences first. -/
def all_original_tags (facts : List RawFact) (adsh : String) : List String :=
  uniqueList ((df_num_target facts adsh).map (fun f => f.tag))

/-- `unmapped_tags_in_company`: raw labels of the filing that look like
the missing concept and are not keys of the alias table. -/
def unmapped_tags_in_company (facts : List RawFact) (adsh missing_tag : String) : List String :=
  (all_original_tags facts adsh).filter
    (fun tag => tagSimilar missing_tag tag && !(dictContains tag_rename_map tag))

/-- What the diagnostic prints for one missing concept: up to three
candidate labels, or the report that the item is likely absent from the
filing itself. -/
inductive TagReport where
  | candidates : List String → TagReport
  | likelyAbsent : TagReport
deriving DecidableEq, Repr

/-- The per-missing-concept branch of `diagnose_missing_tags_v2`. -/
def report_for_missing_tag (facts : List RawFact) (adsh missing_tag : String) : TagReport :=
  let u := unmapped_tags_in_company facts adsh missing_tag
  if u.length > 0 then TagReport.candidates (u.take 3) else TagReport.likelyAbsent

/-! ### Concrete inputs used by witnesses and counterexamples -/

/-- The assembled record of the spec's concrete scenario. -/
def c8rec : FilingRecord :=
  { adsh := "a1", Assets := some 1000, LiabilitiesCurrent := some 200,
    AssetsCurrent := some 400, RetainedEarnings := some 150, EBIT := some 80,
    Liabilities := some 600, Revenues := none, StockholdersEquity := some 400,
    NetIncomeLoss := none, CommonStockSharesOutstanding := none }

/-- A record missing only `EBIT`. -/
def recNoEBIT : FilingRecord :=
  { adsh := "a2", Assets := some 1000, LiabilitiesCurrent := some 200,
    AssetsCurrent := some 400, RetainedEarnings := some 150, EBIT := none,
    Liabilities := some 600, Revenues := some 50, StockholdersEquity := some 400,
    NetIncomeLoss := none, CommonStockSharesOutstanding := none }

/-- A complete record whose `Assets` is exactly zero. -/
def recZeroAssets : FilingRecord :=
  { adsh := "a3", Assets := some 0, LiabilitiesCurrent := some 200,
    AssetsCurrent := some 400, RetainedEarnings := some 150, EBIT := some 80,
    Liabilities := some 600, Revenues := none, StockholdersEquity := some 400,
    NetIncomeLoss := none, CommonStockSharesOutstanding := none }

/-- A complete record whose `StockholdersEquity` is exactly zero. -/
def recZeroEquity : FilingRecord :=
  { adsh := "a4", Assets := some 1000, LiabilitiesCurrent := some 200,
    AssetsCurrent := some 400, RetainedEarnings := some 150, EBIT := some 80,
    Liabilities := some 600, Revenues := none, StockholdersEquity := some 0,
    NetIncomeLoss := some 30, CommonStockSharesOutstanding := none }

/-- A record whose raw composite score is 2.6002: above 2.6, but 2.600
once rounded to three decimals. -/
def recGrey : FilingRecord :=
  { adsh := "a9", Assets := some 1, LiabilitiesCurrent := some 0,
    AssetsCurrent := some (2501/32800), RetainedEarnings := some 0, EBIT := some 0,
    Liabilities := some 1, Revenues := none, StockholdersEquity := some 2,
    NetIncomeLoss := none, CommonStockSharesOutstanding := none }

/-- Context-free facts of one filing covering the seven required concepts
and nothing else (no `Revenues` alias). -/
def cFacts7 : List RawFact :=
  [ { adsh := "a1", tag := "Assets", ddate := "20231231", value := 1000, uom := "USD", qtrs := 0, dim := none },
    { adsh := "a1", tag := "TotalCurrentLiabilities", ddate := "20231231", value := 200, uom := "USD", qtrs := 0, dim := none },
    { adsh := "a1", tag := "CurrentAssets", ddate := "20231231", value := 400, uom := "USD", qtrs := 0, dim := none },
    { adsh := "a1", tag := "RetainedEarnings", ddate := "20231231", value := 150, uom := "USD", qtrs := 0, dim := none },
    { adsh := "a1", tag := "OperatingIncomeLoss", ddate := "20231231", value := 80, uom := "USD", qtrs := 4, dim := none },
    { adsh := "a1", tag := "Liabilities", ddate := "20231231", value := 600, uom := "USD", qtrs := 0, dim := none },
    { adsh := "a1", tag := "StockholdersEquity", ddate := "20231231", value := 400, uom := "USD", qtrs := 0, dim := none } ]

/-- The facts of `cFacts7` plus an unmapped revenue-like raw label. -/
def cFactsRev : List RawFact :=
  cFacts7 ++
  [ { adsh := "a1", tag := "RevenueCustom", ddate := "20231231", value := 70, uom := "USD", qtrs := 4, dim := none } ]

/-- A batch containing a single `Assets` fact: the pivot of this batch has
an `Assets` column and nothing else. -/
def c5facts : List RawFact :=
  [ { adsh := "a1", tag := "Assets", ddate := "20231231", value := 5, uom := "USD", qtrs := 0, dim := none } ]

/-- Earlier and later duplicate facts for `(a1, Assets)`, different
values, with an unrelated fact in front. -/
def dupFirst : RawFact :=
  { adsh := "a1", tag := "AssetsTotal", ddate := "20231231", value := 5, uom := "USD", qtrs := 0, dim := none }

/-- The later duplicate for `(a1, Assets)`. -/
def dupSecond : RawFact :=
  { adsh := "a1", tag := "Assets", ddate := "20231230", value := 7, uom := "USD", qtrs := 0, dim := none }

/-- A fact of another filing, placed before the duplicates. -/
def dupOther : RawFact :=
  { adsh := "a0", tag := "Assets", ddate := "20231231", value := 9, uom := "USD", qtrs := 0, dim := none }

/-- A metadata row of an annual filing. -/
def subGood : SubRow :=
  { adsh := "a1", cik := 1, name := "ACME", period := "20231231", fy := some 2023, fp := "FY" }

/-- A well-formed batch that yields one merged filing. -/
def goodBatch : Batch :=
  { source := "2023q4", subFile := some (Except.ok [subGood]), numFile := some (Except.ok c5facts) }

/-- A batch whose metadata table is structurally malformed: `read_csv`
raises. -/
def badBatch : Batch :=
  { source := "2023q1", subFile := some (Except.error "ParserError"), numFile := some (Except.ok []) }

/-- A batch whose files are absent from disk. -/
def absentBatch : Batch :=
  { source := "2022q4", subFile := none, numFile := none }

/-- A batch that parses correctly but contains no annual filing. -/
def zeroFYBatch : Batch :=
  { source := "2022q1",
    subFile := some (Except.ok [{ subGood with fp := "Q1" }]),
    numFile := some (Except.ok c5facts) }

/-! ### Helper lemmas -/

theorem mem_uniqueAux {a : String} :
    ∀ (l seen : List String), a ∈ uniqueAux seen l ↔ (a ∈ l ∧ ¬ a ∈ seen) := by
  intro l
  induction l with
  | nil => intro seen; simp [uniqueAux]
  | cons b rest ih =>
      intro seen
      by_cases hb : seen.contains b
      · rw [uniqueAux, if_pos hb, ih]
        have hbmem : b ∈ seen := by
          simpa using hb
        constructor
        · rintro ⟨h1, h2⟩
          exact ⟨List.mem_cons_of_mem _ h1, h2⟩
        · rintro ⟨h1, h2⟩
          rcases List.mem_cons.mp h1 with rfl | h1
          · exact absurd hbmem h2
          · exact ⟨h1, h2⟩
      · rw [uniqueAux, if_neg hb]
        constructor
        · intro h
          rcases List.mem_cons.mp h with rfl | h
          · refine ⟨List.mem_cons_self _ _, ?_⟩
            simpa using hb
          · rcases (ih (b :: seen)).mp h with ⟨h1, h2⟩
            refine ⟨List.mem_cons_of_mem _ h1, fun hs => h2 (List.mem_cons_of_mem _ hs)⟩
        · rintro ⟨h1, h2⟩
          rcases List.mem_cons.mp h1 with rfl | h1
          · exact List.mem_cons_self _ _
          · by_cases hab : a = b
            · exact hab ▸ List.mem_cons_self _ _
            · exact List.mem_cons_of_mem _ ((ih (b :: seen)).mpr
                ⟨h1, fun hs => by
                  rcases List.mem_cons.mp hs with h | h
                  · exact hab h
                  · exact h2 h⟩)

theorem mem_uniqueList {a : String} {l : List String} :
    a ∈ uniqueList l ↔ a ∈ l := by
  rw [uniqueList, mem_uniqueAux]
  simp

theorem survivingFacts_append (l₁ l₂ : List RawFact) :
    survivingFacts (l₁ ++ l₂) = survivingFacts l₁ ++ survivingFacts l₂ := by
  simp [survivingFacts, List.filter_append, List.map_append]

theorem mem_survivingFacts {x : RawFact} {l : List RawFact} :
    x ∈ survivingFacts l ↔
      ∃ f ∈ l, f.dim = none ∧ ALL_POTENTIAL_TAGS.contains f.tag = true ∧
        x = { f with tag := (dictLookup tag_rename_map f.tag).getD f.tag } := by
  simp only [survivingFacts, List.mem_map, List.mem_filter]
  constructor
  · rintro ⟨f, ⟨⟨hf, hdim⟩, htag⟩, rfl⟩
    exact ⟨f, hf, by simpa using hdim, htag, rfl⟩
  · rintro ⟨f, hf, hdim, htag, rfl⟩
    exact ⟨f, ⟨⟨hf, by simpa using hdim⟩, htag⟩, rfl⟩

theorem rhe_bounds (q : ℚ) : q - 1/2 ≤ (rhe q : ℚ) ∧ (rhe q : ℚ) ≤ q + 1/2 := by
  have hf : ((⌊q⌋ : ℤ) : ℚ) ≤ q := Int.floor_le q
  have hc : q < (⌊q⌋ : ℤ) + 1 := Int.lt_floor_add_one q
  unfold rhe
  split_ifs with h1 h2 h3 <;> constructor <;> push_cast <;> linarith

theorem roundTo3_lb (q : ℚ) : q - 1/2000 ≤ roundTo 3 q := by
  have h := (rhe_bounds (q * 10 ^ 3)).1
  rw [roundTo, le_div_iff₀ (by norm_num : (0:ℚ) < 10 ^ 3)]
  linarith

theorem x1_of_assets_none {r : FilingRecord} (h : r.Assets = none) : x1 r = none := by
  cases hac : r.AssetsCurrent <;> cases hlc : r.LiabilitiesCurrent <;> simp [x1, h, hac, hlc]

theorem x2_of_assets_none {r : FilingRecord} (h : r.Assets = none) : x2 r = none := by
  cases hre : r.RetainedEarnings <;> simp [x2, h, hre]

theorem x3_of_assets_none {r : FilingRecord} (h : r.Assets = none) : x3 r = none := by
  cases he : r.EBIT <;> simp [x3, h, he]

theorem x4_of_liabilities_none {r : FilingRecord} (h : r.Liabilities = none) : x4 r = none := by
  cases hse : r.StockholdersEquity <;> simp [x4, h, hse]

theorem zRaw_of_x1_none {r : FilingRecord} (h : x1 r = none) : zRaw r = none := by
  cases h2 : x2 r <;> cases h3 : x3 r <;> cases h4 : x4 r <;> simp [zRaw, h, h2, h3, h4]

/-! ### Claims -/

/-- C1: a FilingRecord with any of the seven required fields
(`Assets, LiabilitiesCurrent, AssetsCurrent, RetainedEarnings, EBIT,
Liabilities, StockholdersEquity`) null is excluded from the RatioEngine
output entirely — no partial RatioSet; a null `Revenues` never affects
the filter; and a record with all seven fields non-null yields exactly
one output row, in place. -/
theorem c1_required_field_filter (df₁ df₂ : List FilingRecord) (r : FilingRecord) :
    (requiredPresent r = false →
        calculate_financial_ratios (df₁ ++ r :: df₂) =
          calculate_financial_ratios (df₁ ++ df₂)) ∧
    (requiredPresent r = true →
        calculate_financial_ratios (df₁ ++ r :: df₂) =
          calculate_financial_ratios df₁ ++
            mkOut (replaceZeroDenoms r) :: calculate_financial_ratios df₂) ∧
    (∀ v : Option ℚ, requiredPresent { r with Revenues := v } = requiredPresent r) ∧
    (requiredPresent r = true ↔
        (r.Assets.isSome = true ∧ r.LiabilitiesCurrent.isSome = true ∧
         r.AssetsCurrent.isSome = true ∧ r.RetainedEarnings.isSome = true ∧
         r.EBIT.isSome = true ∧ r.Liabilities.isSome = true ∧
         r.StockholdersEquity.isSome = true)) := by
  refine ⟨?_, ?_, ?_, ?_⟩
  · intro h
    simp [calculate_financial_ratios, List.filter_append, List.filter_cons, h]
  · intro h
    simp [calculate_financial_ratios, List.filter_append, List.filter_cons, h]
  · intro v
    simp [requiredPresent, required_tags_for_z_score, getField]
  · simp [requiredPresent, required_tags_for_z_score, getField]

/-- Witness for C1 at concrete inputs: the record missing only `EBIT` is
excluded entirely, while the complete record of the concrete scenario
yields exactly one output row. -/
theorem c1_witness :
    requiredPresent recNoEBIT = false ∧
    calculate_financial_ratios [c8rec, recNoEBIT] = calculate_financial_ratios [c8rec] ∧
    requiredPresent c8rec = true ∧
    calculate_financial_ratios [c8rec] = [mkOut (replaceZeroDenoms c8rec)] := by
  refine ⟨by decide, ?_, by decide, ?_⟩
  · exact (c1_required_field_filter [c8rec] [] recNoEBIT).1 (by decide)
  · exact (c1_required_field_filter [] [] c8rec).2.1 (by decide)

/-- C2: a zero denominator (`Assets`, `Liabilities` or
`StockholdersEquity`) is nulled before any ratio is computed and the
null propagates: with `Assets = 0`, `X1`, `X2`, `X3` and the composite
score are null, the prediction is `"Incomplete/Invalid"`, and the
output `z_score` field is `0.0`; the record itself, having passed the
required-field filter, still produces exactly one output row. -/
theorem c2_zero_denominator_propagation (r : FilingRecord)
    (h7 : requiredPresent r = true) (hA : r.Assets = some 0) :
    (replaceZeroDenoms r).Assets = none ∧
    x1 (replaceZeroDenoms r) = none ∧
    x2 (replaceZeroDenoms r) = none ∧
    x3 (replaceZeroDenoms r) = none ∧
    zRaw (replaceZeroDenoms r) = none ∧
    (mkOut (replaceZeroDenoms r)).prediction = "Incomplete/Invalid" ∧
    (mkOut (replaceZeroDenoms r)).z_score = some 0 ∧
    calculate_financial_ratios [r] = [mkOut (replaceZeroDenoms r)] ∧
    (∀ s : FilingRecord, s.Liabilities = some 0 → x4 (replaceZeroDenoms s) = none) ∧
    (∀ s : FilingRecord, s.StockholdersEquity = some 0 → roeOf (replaceZeroDenoms s) = none) := by
  have hrz : (replaceZeroDenoms r).Assets = none := by
    simp [replaceZeroDenoms, zeroToNan, hA]
  have h1 : x1 (replaceZeroDenoms r) = none := x1_of_assets_none hrz
  have hz : zRaw (replaceZeroDenoms r) = none := zRaw_of_x1_none h1
  refine ⟨hrz, h1, x2_of_assets_none hrz, x3_of_assets_none hrz, hz, ?_, ?_, ?_, ?_, ?_⟩
  · simp [mkOut, hz, get_prediction]
  · simp [mkOut, hz, get_prediction]
  · simp [calculate_financial_ratios, List.filter_cons, h7]
  · intro s hs
    refine x4_of_liabilities_none ?_
    simp [replaceZeroDenoms, zeroToNan, hs]
  · intro s hs
    have : (replaceZeroDenoms s).StockholdersEquity = none := by
      simp [replaceZeroDenoms, zeroToNan, hs]
    cases hni : (replaceZeroDenoms s).NetIncomeLoss <;> simp [roeOf, this, hni]

/-- Witness for C2: the complete record with `Assets = 0` is classified
`"Incomplete/Invalid"` with output `z_score = 0.0`. -/
theorem c2_witness :
    requiredPresent recZeroAssets = true ∧ recZeroAssets.Assets = some 0 ∧
    (mkOut (replaceZeroDenoms recZeroAssets)).prediction = "Incomplete/Invalid" ∧
    (mkOut (replaceZeroDenoms recZeroAssets)).z_score = some 0 ∧
    calculate_financial_ratios [recZeroAssets] = [mkOut (replaceZeroDenoms recZeroAssets)] := by
  have h := c2_zero_denominator_propagation recZeroAssets (by decide) (by norm_num [recZeroAssets])
  exact ⟨by decide, by norm_num [recZeroAssets], h.2.2.2.2.2.1, h.2.2.2.2.2.2.1, h.2.2.2.2.2.2.2.1⟩

/-- C3: the risk label is a total function of the (possibly null)
z-score: null ↦ `"Incomplete/Invalid"`, `> 2.6` ↦ `"Safe"`,
`(1.1, 2.6]` ↦ `"Grey"`, `≤ 1.1` ↦ `"Distress"`; the band boundaries
2.6 and 1.1 fall in the lower bands. -/
theorem c3_risk_bands :
    get_prediction none = "Incomplete/Invalid" ∧
    (∀ v : ℚ, 2.6 < v → get_prediction (some v) = "Safe") ∧
    (∀ v : ℚ, 1.1 < v → v ≤ 2.6 → get_prediction (some v) = "Grey") ∧
    (∀ v : ℚ, v ≤ 1.1 → get_prediction (some v) = "Distress") ∧
    get_prediction (some 2.6) = "Grey" ∧
    get_prediction (some 1.1) = "Distress" := by
  refine ⟨rfl, ?_, ?_, ?_, ?_, ?_⟩
  · intro v hv
    rw [get_prediction, if_pos hv]
  · intro v h1 h2
    rw [get_prediction, if_neg (by exact not_lt.mpr h2), if_pos h1]
  · intro v h1
    rw [get_prediction, if_neg (by norm_num; linarith), if_neg (by exact not_lt.mpr h1)]
  · rw [get_prediction, if_neg (by norm_num), if_pos (by norm_num)]
  · rw [get_prediction, if_neg (by norm_num), if_neg (by norm_num)]

/-- Witness for C3 at concrete scores: 3 is `"Safe"`, 2 is `"Grey"`,
1 is `"Distress"`. -/
theorem c3_witness :
    get_prediction (some 3) = "Safe" ∧
    get_prediction (some 2) = "Grey" ∧
    get_prediction (some 1) = "Distress" :=
  ⟨c3_risk_bands.2.1 3 (by norm_num),
   c3_risk_bands.2.2.1 2 (by norm_num) (by norm_num),
   c3_risk_bands.2.2.2.1 1 (by norm_num)⟩

/-- C4: when two context-free canonicalizable facts map to the same
`(filingId, concept)` cell, the pivot retains exactly the value of the
first one in original row order, whatever the later one's value is. -/
theorem c4_first_wins (pre mid post : List RawFact) (f1 f2 : RawFact) (c : String)
    (h1dim : f1.dim = none) (h1tag : ALL_POTENTIAL_TAGS.contains f1.tag = true)
    (h1c : (dictLookup tag_rename_map f1.tag).getD f1.tag = c)
    (h2dim : f2.dim = none) (h2tag : ALL_POTENTIAL_TAGS.contains f2.tag = true)
    (h2c : (dictLookup tag_rename_map f2.tag).getD f2.tag = c)
    (hadsh : f2.adsh = f1.adsh)
    (hpre : ∀ f ∈ pre, f.dim = none → ALL_POTENTIAL_TAGS.contains f.tag = true →
        ¬ ((dictLookup tag_rename_map f.tag).getD f.tag = c ∧ f.adsh = f1.adsh)) :
    pivotValue (pre ++ f1 :: (mid ++ f2 :: post)) f1.adsh c = some f1.value := by
  have h1mem : f1.tag ∈ ALL_POTENTIAL_TAGS := by simpa using h1tag
  have key : survivingFacts (f1 :: (mid ++ f2 :: post)) =
      { f1 with tag := c } :: survivingFacts (mid ++ f2 :: post) := by
    simp [survivingFacts, List.filter_cons, h1dim, h1mem, h1c]
  have hpre_none :
      (survivingFacts pre).find? (fun f => f.adsh == f1.adsh && f.tag == c) = none := by
    rw [List.find?_eq_none]
    intro x hx
    rcases mem_survivingFacts.mp hx with ⟨f, hf, hdim, htag, rfl⟩
    simp only [Bool.and_eq_true, beq_iff_eq, not_and]
    intro ha htg
    exact hpre f hf hdim htag ⟨htg, ha⟩
  rw [pivotValue, survivingFacts_append, List.find?_append, hpre_none, key,
    List.find?_cons_of_pos _ (by simp)]
  rfl

/-- Witness for C4: with duplicate `Assets` facts of values 5 and 7 for
the same filing, the pivoted cell is 5, the first value in row order. -/
theorem c4_witness :
    pivotValue [dupOther, dupFirst, dupSecond] "a1" "Assets" = some 5 :=
  c4_first_wins [dupOther] [] [] dupFirst dupSecond "Assets"
    rfl (by decide) (by decide) rfl (by decide) (by decide) rfl (by decide)

/-- C5 counterexample: the claim says every pivoted row has a field for
each of the ten canonical concepts even when a concept appears in no
fact of the entire batch.  In the one-fact batch `c5facts` the pivot
has a single column, `Assets`; the canonical concept `Revenues` has no
column at all. -/
theorem c5_counterexample :
    ¬ ("Revenues" ∈ pivotCols c5facts) ∧
    pivotCols c5facts = ["Assets"] ∧
    "Revenues" ∈ ALL_CANONICAL_TAGS := by
  exact ⟨by decide, by decide, by decide⟩

theorem getField_assembleRecord {c : String} (hc : c ∈ ALL_CANONICAL_TAGS)
    (facts : List RawFact) (adsh : String) :
    getField (assembleRecord facts adsh) c = pivotValue facts adsh c := by
  have heq : ALL_CANONICAL_TAGS =
      ["Assets", "LiabilitiesCurrent", "AssetsCurrent", "RetainedEarnings", "EBIT",
       "Liabilities", "Revenues", "StockholdersEquity", "NetIncomeLoss",
       "CommonStockSharesOutstanding"] := by decide
  rw [heq] at hc
  fin_cases hc <;> rfl

/-- C5 (amended): every pivoted row has one field per canonical concept
that occurs in at least one surviving fact of the batch; for such a
column, a filing's cell is null exactly when the filing itself has no
surviving fact for the concept (null, not zero: any non-null cell is
the value of an actual fact); but a concept occurring in no fact of the
batch yields no column at all. -/
theorem c5_pivot_fields (facts : List RawFact) (adsh c : String)
    (hc : c ∈ ALL_CANONICAL_TAGS) :
    (getField (assembleRecord facts adsh) c = none ↔
       ∀ f ∈ survivingFacts facts, ¬ (f.adsh = adsh ∧ f.tag = c)) ∧
    (∀ v : ℚ, getField (assembleRecord facts adsh) c = some v →
       ∃ f ∈ survivingFacts facts, f.adsh = adsh ∧ f.tag = c ∧ f.value = v) ∧
    (c ∈ pivotCols facts ↔ ∃ f ∈ survivingFacts facts, f.tag = c) := by
  rw [getField_assembleRecord hc]
  refine ⟨?_, ?_, ?_⟩
  · rw [pivotValue, Option.map_eq_none', List.find?_eq_none]
    constructor
    · intro h f hf hcon
      exact h f hf (by simp [hcon.1, hcon.2])
    · intro h f hf hp
      simp only [Bool.and_eq_true, beq_iff_eq] at hp
      exact h f hf hp
  · intro v hv
    rw [pivotValue] at hv
    rcases Option.map_eq_some'.mp hv with ⟨f, hfind, hval⟩
    have hmem := List.mem_of_find?_eq_some hfind
    have hp := List.find?_some hfind
    simp only [Bool.and_eq_true, beq_iff_eq] at hp
    exact ⟨f, hmem, hp.1, hp.2, hval⟩
  · rw [pivotCols, mem_uniqueList, List.mem_map]

/-- Witness for C5 (amended) on the one-fact batch: the filing's
`Revenues` cell of the assembled row is null, and `Assets` is a pivot
column. -/
theorem c5_witness :
    getField (assembleRecord c5facts "a1") "Revenues" = none ∧
    "Assets" ∈ pivotCols c5facts :=
  ⟨(c5_pivot_fields c5facts "a1" "Revenues" (by decide)).1.mpr (by decide),
   (c5_pivot_fields c5facts "a1" "Assets" (by decide)).2.2.mpr (by decide)⟩

theorem loadLoop_error (bs₂ : List Batch) (b : Batch) (e : String)
    (hb : load_and_merge_data b = Except.error e) :
    ∀ (bs₁ : List Batch) (init : List (SubRow × FilingRecord)),
      (∀ b' ∈ bs₁, ∃ d, load_and_merge_data b' = Except.ok d) →
      (bs₁ ++ b :: bs₂).foldlM
        (fun acc bb => do
          let d ← load_and_merge_data bb
          pure (if d.isEmpty then acc else acc ++ d)) init = Except.error e := by
  intro bs₁
  induction bs₁ with
  | nil =>
      intro init _
      simp [List.foldlM_cons, hb, Bind.bind, Except.bind]
  | cons b' rest ih =>
      intro init h
      rcases h b' (List.mem_cons_self _ _) with ⟨d, hd⟩
      simp only [List.cons_append, List.foldlM_cons, hd, Bind.bind, Except.bind]
      exact ih _ (fun x hx => h x (List.mem_cons_of_mem _ hx))

/-- C6 counterexample: the claim says a structurally malformed batch is
reported and skipped while all other batches proceed.  With a malformed
batch followed by a well-formed batch that alone yields one filing, the
loading loop of `main_process` aborts with the uncaught parse error and
the well-formed batch's data is lost; moreover a batch with missing
files and a parsed batch with zero annual filings both return the same
silent empty result. -/
theorem c6_counterexample :
    main_process_load [badBatch, goodBatch] = Except.error "ParserError" ∧
    load_and_merge_data goodBatch =
      Except.ok [(subGood, assembleRecord c5facts "a1")] ∧
    load_and_merge_data absentBatch = Except.ok [] ∧
    load_and_merge_data zeroFYBatch = Except.ok [] :=
  ⟨rfl, rfl, rfl, rfl⟩

/-- C6 (amended): a structurally malformed metadata or fact table makes
`read_csv` raise inside `load_and_merge_data`; the exception is not
caught per batch, so the whole loading loop aborts with it and no later
batch proceeds.  A batch whose files are missing yields a silently
empty result, indistinguishable from a batch that parsed correctly but
yielded zero filings. -/
theorem c6_error_propagation (bs₁ bs₂ : List Batch) (b : Batch) (e : String)
    (hb : load_and_merge_data b = Except.error e)
    (h1 : ∀ b' ∈ bs₁, ∃ d, load_and_merge_data b' = Except.ok d) :
    main_process_load (bs₁ ++ b :: bs₂) = Except.error e ∧
    (∀ b' : Batch, b'.subFile = none → load_and_merge_data b' = Except.ok []) ∧
    (∀ b' : Batch, b'.numFile = none → load_and_merge_data b' = Except.ok []) := by
  refine ⟨loadLoop_error bs₂ b e hb bs₁ [] h1, ?_, ?_⟩
  · intro b' hnone
    rcases b' with ⟨src, sf, nf⟩
    dsimp at hnone
    subst hnone
    rcases nf with _ | numE <;> rfl
  · intro b' hnone
    rcases b' with ⟨src, sf, nf⟩
    dsimp at hnone
    subst hnone
    rcases sf with _ | subE <;> rfl

/-- Witness for C6 (amended): a good batch followed by the malformed one
still aborts the whole run, and the batch with absent files loads as
silently empty. -/
theorem c6_witness :
    main_process_load [goodBatch, badBatch] = Except.error "ParserError" ∧
    load_and_merge_data absentBatch = Except.ok [] := by
  have h := c6_error_propagation [goodBatch] [] badBatch "ParserError" rfl
    (by
      intro b' hb'
      rw [List.mem_singleton] at hb'
      subst hb'
      exact ⟨_, rfl⟩)
  exact ⟨h.1, h.2.1 absentBatch rfl⟩

/-- C7 counterexample: the claim says the diagnostic's missing set is the
seven-concept required set (exempting `Revenues`) minus the present
concepts.  For a filing whose facts cover exactly the seven required
concepts, the required-set difference is empty, yet the diagnostic
reports `Revenues` missing — it works off the eight-element core list
that includes `Revenues`. -/
theorem c7_counterexample :
    missing_core_tags cFacts7 "a1" = ["Revenues"] ∧
    required_tags_for_z_score.filter
      (fun t => !((present_tags cFacts7 "a1").contains t)) = [] :=
  ⟨by decide, by decide⟩

theorem mem_present_tags {facts : List RawFact} {adsh t : String} :
    t ∈ present_tags facts adsh ↔
      ∃ f ∈ df_num_target facts adsh, dictLookup tag_rename_map f.tag = some t := by
  rw [present_tags, mem_uniqueList, List.mem_filterMap]

/-- C7 (amended): the diagnostic's missing set is the eight-concept core
set `Z_SCORE_CORE_TAGS` (which includes `Revenues`) minus the canonical
concepts found among the filing's context-free facts; for each missing
concept it reports at most 3 candidate labels, each a raw label of the
filing that is not an alias-table key and whose lowercased text
contains the full lowercased concept name or its first three
characters; when no candidate exists it reports the concept as likely
absent from the filing itself. -/
theorem c7_diagnostic (facts : List RawFact) (adsh t : String) :
    (t ∈ missing_core_tags facts adsh ↔
       t ∈ Z_SCORE_CORE_TAGS ∧
         ∀ f ∈ df_num_target facts adsh, ¬ dictLookup tag_rename_map f.tag = some t) ∧
    (∀ lbl ∈ unmapped_tags_in_company facts adsh t,
       (∃ f ∈ df_num_target facts adsh, f.tag = lbl) ∧
       dictContains tag_rename_map lbl = false ∧ tagSimilar t lbl = true) ∧
    (report_for_missing_tag facts adsh t = TagReport.likelyAbsent ↔
       unmapped_tags_in_company facts adsh t = []) ∧
    (∀ ls, report_for_missing_tag facts adsh t = TagReport.candidates ls →
       ls.length ≤ 3 ∧ ∀ lbl ∈ ls, lbl ∈ unmapped_tags_in_company facts adsh t) := by
  have hrep : report_for_missing_tag facts adsh t =
      (if 0 < (unmapped_tags_in_company facts adsh t).length
       then TagReport.candidates ((unmapped_tags_in_company facts adsh t).take 3)
       else TagReport.likelyAbsent) := rfl
  refine ⟨?_, ?_, ?_, ?_⟩
  · rw [missing_core_tags, List.mem_filter]
    constructor
    · rintro ⟨hz, hnp⟩
      refine ⟨hz, fun f hf hl => ?_⟩
      have hmem : t ∈ present_tags facts adsh := mem_present_tags.mpr ⟨f, hf, hl⟩
      have hcont : (present_tags facts adsh).contains t = true := by simpa using hmem
      rw [hcont] at hnp
      exact absurd hnp (by decide)
    · rintro ⟨hz, hall⟩
      refine ⟨hz, ?_⟩
      have hnm : ¬ t ∈ present_tags facts adsh := fun hmem => by
        rcases mem_present_tags.mp hmem with ⟨f, hf, hl⟩
        exact hall f hf hl
      have hcont : (present_tags facts adsh).contains t = false := by simpa using hnm
      rw [hcont]
      rfl
  · intro lbl hl
    rw [unmapped_tags_in_company, List.mem_filter] at hl
    rcases hl with ⟨hmem, hpred⟩
    rw [all_original_tags, mem_uniqueList, List.mem_map] at hmem
    simp only [Bool.and_eq_true, Bool.not_eq_true'] at hpred
    exact ⟨hmem, hpred.2, hpred.1⟩
  · rw [hrep]
    rcases Nat.eq_zero_or_pos (unmapped_tags_in_company facts adsh t).length with h0 | hpos
    · rw [if_neg (by omega)]
      simp [List.length_eq_zero.mp h0]
    · rw [if_pos hpos]
      constructor
      · intro h
        exact absurd h (by simp)
      · intro h
        rw [h] at hpos
        simp at hpos
  · intro ls hls
    rw [hrep] at hls
    by_cases hpos : 0 < (unmapped_tags_in_company facts adsh t).length
    · rw [if_pos hpos] at hls
      injection hls with h
      subst h
      refine ⟨?_, fun lbl hl => List.take_subset 3 _ hl⟩
      rw [List.length_take]
      omega
    · rw [if_neg hpos] at hls
      exact absurd hls (by simp)

/-- Witness for C7 (amended): a filing with an unmapped revenue-like raw
label has `Revenues` in its missing set and the diagnostic reports that
label as a candidate. -/
theorem c7_witness :
    ("Revenues" ∈ missing_core_tags cFactsRev "a1") ∧
    report_for_missing_tag cFactsRev "a1" "Revenues" =
      TagReport.candidates ["RevenueCustom"] ∧
    ("RevenueCustom" ∈ unmapped_tags_in_company cFactsRev "a1" "Revenues") := by
  refine ⟨?_, by decide, ?_⟩
  · exact (c7_diagnostic cFactsRev "a1" "Revenues").1.mpr ⟨by decide, by decide⟩
  · exact ((c7_diagnostic cFactsRev "a1" "Revenues").2.2.2 ["RevenueCustom"]
      (by decide)).2 "RevenueCustom" (by decide)

/-- C8: the concrete scenario `Assets=1000, AssetsCurrent=400,
LiabilitiesCurrent=200, RetainedEarnings=150, EBIT=80, Liabilities=600,
StockholdersEquity=400` yields `X1=0.2000, X2=0.1500, X3=0.0800,
X4=0.6667` (rounded to 4 places after all arithmetic),
`zScore=3.039` (rounded to 3 places) and prediction `"Safe"`. -/
theorem c8_concrete_scenario :
    calculate_financial_ratios [c8rec] =
      [{ adsh := "a1", X1 := some 0.2, X2 := some 0.15, X3 := some 0.08,
         X4 := some 0.6667, X5 := none, net_income := none,
         total_equity := some 400, shares_outstanding := none,
         z_score := some 3.039, prediction := "Safe", eps := none,
         roe := none }] := by
  have hreq : requiredPresent c8rec = true := by decide
  have hrz : replaceZeroDenoms c8rec = c8rec := by
    norm_num [replaceZeroDenoms, zeroToNan, c8rec]
  have hx1 : x1 c8rec = some (1/5) := by norm_num [x1, c8rec]
  have hx2 : x2 c8rec = some (3/20) := by norm_num [x2, c8rec]
  have hx3 : x3 c8rec = some (2/25) := by norm_num [x3, c8rec]
  have hx4 : x4 c8rec = some (2/3) := by norm_num [x4, c8rec]
  have hx5 : x5 c8rec = none := by simp [x5, c8rec]
  have hz : zRaw c8rec = some (15193/5000) := by
    simp only [zRaw, hx1, hx2, hx3, hx4, Option.some.injEq]
    norm_num
  have hroe : roeOf c8rec = none := by simp [roeOf, c8rec]
  have heps : epsOf c8rec = none := by simp [epsOf, c8rec]
  have hr1 : roundTo 4 (1/5) = 0.2 := by norm_num [roundTo, rhe]
  have hr2 : roundTo 4 (3/20) = 0.15 := by norm_num [roundTo, rhe]
  have hr3 : roundTo 4 (2/25) = 0.08 := by norm_num [roundTo, rhe]
  have hr4 : roundTo 4 (2/3) = 0.6667 := by norm_num [roundTo, rhe]
  have hrz3 : roundTo 3 (15193/5000) = 3.039 := by norm_num [roundTo, rhe]
  have hpred : get_prediction (some (3.039 : ℚ)) = "Safe" := by
    rw [get_prediction, if_pos (by norm_num)]
  have ha : c8rec.adsh = "a1" := rfl
  have hni : c8rec.NetIncomeLoss = none := rfl
  have hte : c8rec.StockholdersEquity = some 400 := rfl
  have hsh : c8rec.CommonStockSharesOutstanding = none := rfl
  rw [show calculate_financial_ratios [c8rec] = [mkOut (replaceZeroDenoms c8rec)] from by
    simp [calculate_financial_ratios, List.filter_cons, hreq]]
  rw [hrz]
  simp [mkOut, hx1, hx2, hx3, hx4, hx5, hz, hroe, heps, hr1, hr2, hr3, hr4,
    hrz3, hpred, ha, hni, hte, hsh]
  norm_num [roundTo, rhe]

/-- C9: the risk label is computed from the z-score only after rounding
to 3 decimal places, so a raw composite score strictly above 2.6 whose
rounding is at most 2.6 is classified `"Grey"`, and a raw score
strictly above 1.1 whose rounding is exactly 1.1 is classified
`"Distress"`. -/
theorem c9_rounded_classification (r : FilingRecord) (v : ℚ)
    (hz : zRaw r = some v) :
    (mkOut r).prediction = get_prediction (some (roundTo 3 v)) ∧
    (2.6 < v → roundTo 3 v ≤ 2.6 → (mkOut r).prediction = "Grey") ∧
    (1.1 < v → roundTo 3 v = 1.1 → (mkOut r).prediction = "Distress") := by
  have hpred : (mkOut r).prediction = get_prediction (some (roundTo 3 v)) := by
    simp [mkOut, hz]
  refine ⟨hpred, ?_, ?_⟩
  · intro h1 h2
    have hlb := roundTo3_lb v
    have hgt : (1.1 : ℚ) < roundTo 3 v := by linarith
    rw [hpred, get_prediction, if_neg (not_lt.mpr h2), if_pos hgt]
  · intro h1 h2
    rw [hpred, h2, get_prediction, if_neg (by norm_num), if_neg (by norm_num)]

/-- Witness for C9: a record whose raw composite score is 2.6002 (above
2.6) rounds to 2.600 and is classified `"Grey"`, not `"Safe"`. -/
theorem c9_witness :
    zRaw recGrey = some (2.6002 : ℚ) ∧ (2.6 : ℚ) < 2.6002 ∧
    roundTo 3 (2.6002 : ℚ) ≤ 2.6 ∧ (mkOut recGrey).prediction = "Grey" := by
  have hx1 : x1 recGrey = some (2501/32800) := by norm_num [x1, recGrey]
  have hx2 : x2 recGrey = some 0 := by norm_num [x2, recGrey]
  have hx3 : x3 recGrey = some 0 := by norm_num [x3, recGrey]
  have hx4 : x4 recGrey = some 2 := by norm_num [x4, recGrey]
  have hz : zRaw recGrey = some (2.6002 : ℚ) := by
    simp only [zRaw, hx1, hx2, hx3, hx4, Option.some.injEq]
    norm_num
  have h1 : (2.6 : ℚ) < 2.6002 := by norm_num
  have h2 : roundTo 3 (2.6002 : ℚ) ≤ 2.6 := by norm_num [roundTo, rhe]
  exact ⟨hz, h1, h2, ((c9_rounded_classification recGrey 2.6002 hz).2.1) h1 h2⟩

/-- C10: the zero-to-null replacement touches only the `Assets`,
`Liabilities` and `StockholdersEquity` cells and leaves every other
field of the record unchanged; a filing with all seven required fields
non-null and `StockholdersEquity` exactly 0 still appears in the output
(one row), but its exported `total_equity` is null — SQL NULL after
conversion — rather than 0. -/
theorem c10_zero_equity_export (r : FilingRecord) :
    ((replaceZeroDenoms r).adsh = r.adsh ∧
     (replaceZeroDenoms r).LiabilitiesCurrent = r.LiabilitiesCurrent ∧
     (replaceZeroDenoms r).AssetsCurrent = r.AssetsCurrent ∧
     (replaceZeroDenoms r).RetainedEarnings = r.RetainedEarnings ∧
     (replaceZeroDenoms r).EBIT = r.EBIT ∧
     (replaceZeroDenoms r).Revenues = r.Revenues ∧
     (replaceZeroDenoms r).NetIncomeLoss = r.NetIncomeLoss ∧
     (replaceZeroDenoms r).CommonStockSharesOutstanding = r.CommonStockSharesOutstanding) ∧
    (r.StockholdersEquity = some 0 → (replaceZeroDenoms r).StockholdersEquity = none) ∧
    (requiredPresent r = true → r.StockholdersEquity = some 0 →
       calculate_financial_ratios [r] = [mkOut (replaceZeroDenoms r)] ∧
       (mkOut (replaceZeroDenoms r)).total_equity = none ∧
       safe_numeric_to_db (mkOut (replaceZeroDenoms r)).total_equity = none) := by
  refine ⟨⟨rfl, rfl, rfl, rfl, rfl, rfl, rfl, rfl⟩, ?_, ?_⟩
  · intro h
    simp [replaceZeroDenoms, zeroToNan, h]
  · intro h7 h0
    have hse : (replaceZeroDenoms r).StockholdersEquity = none := by
      simp [replaceZeroDenoms, zeroToNan, h0]
    refine ⟨?_, ?_, ?_⟩
    · simp [calculate_financial_ratios, List.filter_cons, h7]
    · simp [mkOut, hse]
    · simp [safe_numeric_to_db, mkOut, hse]

/-- Witness for C10: the complete record with `StockholdersEquity = 0`
still produces one output row and its exported `total_equity` is
null. -/
theorem c10_witness :
    requiredPresent recZeroEquity = true ∧
    recZeroEquity.StockholdersEquity = some 0 ∧
    calculate_financial_ratios [recZeroEquity] =
      [mkOut (replaceZeroDenoms recZeroEquity)] ∧
    (mkOut (replaceZeroDenoms recZeroEquity)).total_equity = none ∧
    safe_numeric_to_db (mkOut (replaceZeroDenoms recZeroEquity)).total_equity = none := by
  have h := (c10_zero_equity_export recZeroEquity).2.2 (by decide) rfl
  exact ⟨by decide, rfl, h.1, h.2.1, h.2.2⟩

end FinPipeline
